import Mathlib

/-!
Shallow embedding of the OverWatch alerting subsystem
(`src/overwatch/alerts/manager.py`) and of the WebSocket connection
registry (`src/overwatch/api/websocket.py`).

Modelling conventions:
* time is an `Int` number of seconds (`datetime.now()` becomes an explicit
  `now : Int` parameter; `timedelta(minutes=5)` becomes `300`);
* numeric readings and thresholds are `Int`;
* a Python dict key that may be absent becomes an `Option` field, with
  `dict.get(k, d)` embedded as `Option.getD` and `dict[k]` embedded as a
  fallible lookup in `Except String`;
* a Python exception propagating out of a function is the `.error` case of
  `Except String`; a `try/except` that swallows the exception is embedded by
  total code that records the caught error;
* handler callables become Lean functions `String → String → Int → Except
  String Unit`, and the observable effect of invoking them is recorded as an
  explicit list of `HandlerCall` values in invocation order.
-/

namespace OverWatch

/-- Entry of the threshold configuration dict for one metric kind.
`threshold` is `none` when the `"threshold"` key is absent from the entry;
`enabled` embeds the truthiness of `entry.get("enabled", False)`. -/
structure ThresholdEntry where
  threshold : Option Int
  enabled : Bool
  deriving DecidableEq, Repr

/-- The `thresholds` dict: an association list from metric kind to entry. -/
abbrev Config := List (String × ThresholdEntry)

/-- One record of `alert_history`, as built in `_trigger_alert`:
`{"type": ..., "message": ..., "value": ..., "timestamp": now}`. -/
structure AlertRecord where
  alert_type : String
  message : String
  value : Int
  timestamp : Int
  deriving DecidableEq, Repr

/-- Outcome of one handler invocation: the `try` body succeeded, or the
exception was caught by the `except` block (and merely logged). -/
inductive HandlerOutcome where
  | succeeded
  | caught (err : String)
  deriving DecidableEq, Repr

/-- An alert handler: receives `(alert_type, message, value)` and may raise. -/
abbrev Handler := String → String → Int → Except String Unit

/-- Observable trace entry for one handler invocation: the arguments the
handler was called with and what happened. -/
structure HandlerCall where
  alert_type : String
  message : String
  value : Int
  outcome : HandlerOutcome

/-- The mutable state of `AlertManager`. -/
structure AlertManager where
  thresholds : Config
  alert_handlers : List Handler
  alert_history : List AlertRecord
  cooldown_period : Int
  last_alerts : List (String × Int)

/-- Python dict assignment `d[k] = v` on an association list: the new binding
shadows and replaces any previous binding of `k`. -/
def setKey (l : List (String × Int)) (k : String) (v : Int) : List (String × Int) :=
  (k, v) :: l.filter (fun p => !(p.1 == k))

/-- Embeds `thresholds.get(kind, {}).get("enabled", False)`. -/
def enabledFor (cfg : Config) (kind : String) : Bool :=
  match List.lookup kind cfg with
  | some e => e.enabled
  | none => false

/-- Embeds the raising index `thresholds[kind]` (Python `KeyError`). -/
def dictGet (cfg : Config) (kind : String) : Except String ThresholdEntry :=
  match List.lookup kind cfg with
  | some e => .ok e
  | none => .error ("KeyError: " ++ kind)

/-- Embeds the raising index `entry["threshold"]` (Python `KeyError`). -/
def entryThreshold (e : ThresholdEntry) : Except String Int :=
  match e.threshold with
  | some t => .ok t
  | none => .error "KeyError: threshold"

/-- Embeds one iteration of the handler loop body in `_trigger_alert`:
`try: handler(alert_type, message, value) except Exception as e: print(...)`.
The exception is caught, never re-raised, so the result type is total. -/
def callHandler (h : Handler) (alert_type message : String) (value : Int) : HandlerCall :=
  { alert_type := alert_type, message := message, value := value,
    outcome :=
      match h alert_type message value with
      | .ok _ => .succeeded
      | .error e => .caught e }

/-- The cooldown guard of `_trigger_alert`: the candidate fires unless
`alert_type in last_alerts` and `now - last < cooldown_period`. -/
def alertFires (st : AlertManager) (now : Int) (alert_type : String) : Bool :=
  match List.lookup alert_type st.last_alerts with
  | some last => !(now - last < st.cooldown_period)
  | none => true

/-- The fired branch of `_trigger_alert`: record the last-alert time, append
one history record, and call every registered handler in order. -/
def fireAlert (st : AlertManager) (now : Int) (alert_type message : String)
    (value : Int) : AlertManager × List HandlerCall :=
  ({ st with
      last_alerts := setKey st.last_alerts alert_type now,
      alert_history := st.alert_history ++
        [{ alert_type := alert_type, message := message, value := value, timestamp := now }] },
   st.alert_handlers.map (fun h => callHandler h alert_type message value))

/-- Embeds `AlertManager._trigger_alert`. Returns the updated state and the
trace of handler invocations performed (empty when suppressed). -/
def triggerAlert (st : AlertManager) (now : Int) (alert_type message : String)
    (value : Int) : AlertManager × List HandlerCall :=
  match List.lookup alert_type st.last_alerts with
  | some last =>
      if now - last < st.cooldown_period then
        (st, [])
      else
        fireAlert st now alert_type message value
  | none => fireAlert st now alert_type message value

/-- CPU data from `core.cpu.get()`: only the `"total"` key is consulted. -/
structure CpuData where
  total : Option Int
  deriving DecidableEq, Repr

/-- The `"ram"` sub-dict of memory data. -/
structure RamData where
  percent : Option Int
  deriving DecidableEq, Repr

/-- Memory data from `core.memory.get()`. -/
structure MemoryData where
  ram : Option RamData
  deriving DecidableEq, Repr

/-- One entry of `disk_data["partitions"]`. -/
structure Partition where
  percent : Option Int
  mountpoint : Option String
  deriving DecidableEq, Repr

/-- Disk data from `core.disk.get()`. -/
structure DiskData where
  partitions : Option (List Partition)
  deriving DecidableEq, Repr

/-- One entry of a temperature sensor reading list. -/
structure TempEntry where
  current : Option Int
  label : Option String
  deriving DecidableEq, Repr

/-- Sensor data from `core.sensors.get()`: `temperatures` maps a sensor name
to its value; `none` for a value embeds a non-list value (the
`isinstance(entries, list)` test fails on it). -/
structure SensorData where
  temperatures : Option (List (String × Option (List TempEntry)))
  deriving DecidableEq, Repr

/-- Message built by `check_cpu` for an over-threshold reading. -/
def cpuMessage (current threshold : Int) : String :=
  "CPU usage is " ++ toString current ++ "% (threshold: " ++ toString threshold ++ "%)"

/-- Message built by `check_memory` for an over-threshold reading. -/
def memoryMessage (current threshold : Int) : String :=
  "Memory usage is " ++ toString current ++ "% (threshold: " ++ toString threshold ++ "%)"

/-- Message built by `check_disk` for an over-threshold partition. -/
def diskMessage (mountpoint : String) (current threshold : Int) : String :=
  "Disk usage on " ++ mountpoint ++ " is " ++ toString current ++
    "% (threshold: " ++ toString threshold ++ "%)"

/-- Message built by `check_temperature` for an over-threshold sensor entry. -/
def temperatureMessage (label : String) (current threshold : Int) : String :=
  "Temperature " ++ label ++ " is " ++ toString current ++
    "°C (threshold: " ++ toString threshold ++ "°C)"

/-- The evaluation part of `check_cpu`, up to and including the comparison:
`some (message, value)` when the code would call `_trigger_alert`, `none`
when it returns without a candidate, `.error` when it raises. -/
def cpuCandidate (cfg : Config) (cpu_data : CpuData) :
    Except String (Option (String × Int)) :=
  if !(enabledFor cfg "cpu") then .ok none
  else do
    let entry ← dictGet cfg "cpu"
    let threshold ← entryThreshold entry
    let current := cpu_data.total.getD 0
    if current > threshold then
      .ok (some (cpuMessage current threshold, current))
    else
      .ok none

/-- Embeds `AlertManager.check_cpu`. -/
def check_cpu (st : AlertManager) (now : Int) (cpu_data : CpuData) :
    Except String (AlertManager × List HandlerCall) :=
  match cpuCandidate st.thresholds cpu_data with
  | .error e => .error e
  | .ok none => .ok (st, [])
  | .ok (some (msg, v)) => .ok (triggerAlert st now "cpu" msg v)

/-- The evaluation part of `check_memory`, analogous to `cpuCandidate`.
The reading is `memory_data.get("ram", {}).get("percent", 0)`. -/
def memoryCandidate (cfg : Config) (memory_data : MemoryData) :
    Except String (Option (String × Int)) :=
  if !(enabledFor cfg "memory") then .ok none
  else do
    let entry ← dictGet cfg "memory"
    let threshold ← entryThreshold entry
    let current := ((memory_data.ram.getD { percent := none }).percent).getD 0
    if current > threshold then
      .ok (some (memoryMessage current threshold, current))
    else
      .ok none

/-- Embeds `AlertManager.check_memory`. -/
def check_memory (st : AlertManager) (now : Int) (memory_data : MemoryData) :
    Except String (AlertManager × List HandlerCall) :=
  match memoryCandidate st.thresholds memory_data with
  | .error e => .error e
  | .ok none => .ok (st, [])
  | .ok (some (msg, v)) => .ok (triggerAlert st now "memory" msg v)

/-- The partition loop of `check_disk`, threading the manager state through
successive `_trigger_alert` calls and concatenating the handler traces. -/
def diskLoop (st : AlertManager) (now threshold : Int) :
    List Partition → AlertManager × List HandlerCall
  | [] => (st, [])
  | p :: rest =>
    let current := p.percent.getD 0
    let mountpoint := p.mountpoint.getD ""
    if current > threshold then
      let res := triggerAlert st now "disk" (diskMessage mountpoint current threshold) current
      let res' := diskLoop res.1 now threshold rest
      (res'.1, res.2 ++ res'.2)
    else
      diskLoop st now threshold rest

/-- Embeds `AlertManager.check_disk`. -/
def check_disk (st : AlertManager) (now : Int) (disk_data : DiskData) :
    Except String (AlertManager × List HandlerCall) :=
  if !(enabledFor st.thresholds "disk") then .ok (st, [])
  else do
    let entry ← dictGet st.thresholds "disk"
    let threshold ← entryThreshold entry
    .ok (diskLoop st now threshold (disk_data.partitions.getD []))

/-- The inner entry loop of `check_temperature` for one sensor name. -/
def tempEntryLoop (st : AlertManager) (now threshold : Int) (sensor_name : String) :
    List TempEntry → AlertManager × List HandlerCall
  | [] => (st, [])
  | e :: rest =>
    let current := e.current.getD 0
    let label := e.label.getD sensor_name
    if current > threshold then
      let res := triggerAlert st now "temperature"
        (temperatureMessage label current threshold) current
      let res' := tempEntryLoop res.1 now threshold sensor_name rest
      (res'.1, res.2 ++ res'.2)
    else
      tempEntryLoop st now threshold sensor_name rest

/-- The outer sensor loop of `check_temperature`: non-list values are skipped
by the `isinstance(entries, list)` test. -/
def tempSensorLoop (st : AlertManager) (now threshold : Int) :
    List (String × Option (List TempEntry)) → AlertManager × List HandlerCall
  | [] => (st, [])
  | (name, entries) :: rest =>
    match entries with
    | some l =>
      let res := tempEntryLoop st now threshold name l
      let res' := tempSensorLoop res.1 now threshold rest
      (res'.1, res.2 ++ res'.2)
    | none => tempSensorLoop st now threshold rest

/-- Embeds `AlertManager.check_temperature`. -/
def check_temperature (st : AlertManager) (now : Int) (sensor_data : SensorData) :
    Except String (AlertManager × List HandlerCall) :=
  if !(enabledFor st.thresholds "temperature") then .ok (st, [])
  else do
    let entry ← dictGet st.thresholds "temperature"
    let threshold ← entryThreshold entry
    .ok (tempSensorLoop st now threshold (sensor_data.temperatures.getD []))

/-- A snapshot handed to `check_all`; `none` embeds an absent top-level key. -/
structure SystemData where
  cpu : Option CpuData
  memory : Option MemoryData
  disk : Option DiskData
  sensors : Option SensorData
  deriving DecidableEq, Repr

/-- One statement of `check_all`: `if key in system_data: self.check_X(...)`.
When the key is absent the state is untouched and no handler runs. -/
def checkIfPresent
    (f : AlertManager → Int → α → Except String (AlertManager × List HandlerCall))
    (st : AlertManager) (now : Int) :
    Option α → Except String (AlertManager × List HandlerCall)
  | some d => f st now d
  | none => .ok (st, [])

/-- Embeds `AlertManager.check_all`: the four checks run in order, each only
when its key is present; an exception in any check propagates out. -/
def check_all (st : AlertManager) (now : Int) (system_data : SystemData) :
    Except String (AlertManager × List HandlerCall) := do
  let r1 ← checkIfPresent check_cpu st now system_data.cpu
  let r2 ← checkIfPresent check_memory r1.1 now system_data.memory
  let r3 ← checkIfPresent check_disk r2.1 now system_data.disk
  let r4 ← checkIfPresent check_temperature r3.1 now system_data.sensors
  .ok (r4.1, r1.2 ++ r2.2 ++ r3.2 ++ r4.2)

/-- Python slice `xs[s:]` for an arbitrary integer start index `s`. -/
def pySliceFrom (xs : List α) (s : Int) : List α :=
  if s < 0 then xs.drop (max (xs.length + s) 0).toNat
  else xs.drop (min s (xs.length : Int)).toNat

/-- Embeds `AlertManager.get_alert_history`: `self.alert_history[-limit:]`. -/
def get_alert_history (st : AlertManager) (limit : Int) : List AlertRecord :=
  pySliceFrom st.alert_history (-limit)

/-- Embeds `AlertManager.clear_history`. -/
def clear_history (st : AlertManager) : AlertManager :=
  { st with alert_history := [], last_alerts := [] }

/-- The three outcomes of opening and parsing the threshold file. -/
inductive ThresholdFile where
  | missing
  | malformed
  | valid (cfg : Config)

/-- The default thresholds returned when the file is not found. -/
def defaultThresholds : Config :=
  [("cpu", { threshold := some 90, enabled := true }),
   ("memory", { threshold := some 80, enabled := true }),
   ("disk", { threshold := some 85, enabled := true }),
   ("temperature", { threshold := some 80, enabled := false })]

/-- Embeds `AlertManager.load_thresholds`. The `Bool` component records
whether the `json.JSONDecodeError` branch printed its error message. -/
def load_thresholds : ThresholdFile → Config × Bool
  | .missing => (defaultThresholds, false)
  | .malformed => ([], true)
  | .valid cfg => (cfg, false)

/-- The state of `ConnectionManager` (`src/overwatch/api/websocket.py`):
the set of active WebSocket connections, modelled as a list of connection
identifiers in iteration order. -/
structure ConnectionManager where
  active_connections : List Nat

/-- Embeds `ConnectionManager.disconnect`: `active_connections.discard(ws)`. -/
def disconnect (m : ConnectionManager) (c : Nat) : ConnectionManager :=
  { m with active_connections := m.active_connections.filter (fun x => !(x == c)) }

/-- Observable trace entry for one `send_text` attempt inside `broadcast`. -/
structure SendAttempt where
  conn : Nat
  payload : String
  ok : Bool
  deriving DecidableEq, Repr

/-- Embeds `ConnectionManager.broadcast`: attempt `send_text(message)` on
every current member (`sendOk` tells whether a given member's delivery
succeeds), collect the failed ones, then discard each failed member.
The `except Exception` block makes each attempt total. -/
def broadcast (m : ConnectionManager) (sendOk : Nat → String → Bool)
    (message : String) : ConnectionManager × List SendAttempt :=
  let attempts := m.active_connections.map
    (fun c => { conn := c, payload := message, ok := sendOk c message : SendAttempt })
  let disconnected := (attempts.filter (fun a => !a.ok)).map (fun a => a.conn)
  (disconnected.foldl disconnect m, attempts)

/-! ## Helper lemmas -/

theorem lookup_setKey_self (l : List (String × Int)) (k : String) (v : Int) :
    List.lookup k (setKey l k v) = some v := by
  simp [setKey, List.lookup]

theorem triggerAlert_of_fires (st : AlertManager) (now : Int) (k msg : String)
    (v : Int) (h : alertFires st now k = true) :
    triggerAlert st now k msg v = fireAlert st now k msg v := by
  unfold triggerAlert
  unfold alertFires at h
  rcases hl : List.lookup k st.last_alerts with _ | last
  · simp
  · rw [hl] at h
    simp only [Bool.not_eq_true', decide_eq_false_iff_not] at h
    simp [h]

theorem triggerAlert_of_suppressed (st : AlertManager) (now : Int) (k msg : String)
    (v : Int) (h : alertFires st now k = false) :
    triggerAlert st now k msg v = (st, []) := by
  unfold triggerAlert
  unfold alertFires at h
  rcases hl : List.lookup k st.last_alerts with _ | last
  · rw [hl] at h; simp at h
  · rw [hl] at h
    simp only [Bool.not_eq_false', decide_eq_true_eq] at h
    simp [h]

/-! ## C5: suppression is side-effect free -/

/-- C5: a candidate for kind `k` arriving within the cooldown window of `k`'s
recorded last-fire time leaves the entire `AlertManager` state unchanged
(`alert_history`, `last_alerts`, `thresholds`, handlers — the returned state
is equal to the input state) and invokes no handler (empty call trace). -/
theorem suppression_is_side_effect_free (st : AlertManager) (now : Int)
    (k msg : String) (v : Int) (last : Int)
    (hl : List.lookup k st.last_alerts = some last)
    (hc : now - last < st.cooldown_period) :
    triggerAlert st now k msg v = (st, []) := by
  apply triggerAlert_of_suppressed
  unfold alertFires
  rw [hl]
  simp [hc]

def c5State : AlertManager :=
  { thresholds := [], alert_handlers := [], alert_history := [],
    cooldown_period := 300, last_alerts := [("cpu", 50)] }

/-- Witness for C5 at a concrete suppressed candidate. -/
theorem suppression_is_side_effect_free_witness :
    triggerAlert c5State 100 "cpu" "m" 1 = (c5State, []) :=
  suppression_is_side_effect_free c5State 100 "cpu" "m" 1 50 (by decide) (by decide)

/-! ## C10: clear_history resets history and cooldown state -/

/-- C10: `clear_history` empties both the alert history and the cooldown
state, so `get_alert_history` returns `[]` for every limit, and the next
candidate for any kind fires (the cooldown gate passes) regardless of any
last-fire time recorded before the clear. -/
theorem clear_history_resets_state (st : AlertManager) (limit now : Int)
    (k msg : String) (v : Int) :
    (clear_history st).alert_history = []
    ∧ (clear_history st).last_alerts = []
    ∧ get_alert_history (clear_history st) limit = []
    ∧ alertFires (clear_history st) now k = true
    ∧ triggerAlert (clear_history st) now k msg v =
        fireAlert (clear_history st) now k msg v
    ∧ (triggerAlert (clear_history st) now k msg v).1.alert_history =
        [{ alert_type := k, message := msg, value := v, timestamp := now }] := by
  have hfires : alertFires (clear_history st) now k = true := by
    unfold alertFires clear_history
    simp [List.lookup]
  have htrig := triggerAlert_of_fires (clear_history st) now k msg v hfires
  refine ⟨rfl, rfl, ?_, hfires, htrig, ?_⟩
  · unfold get_alert_history pySliceFrom clear_history
    split <;> simp
  · rw [htrig]
    unfold fireAlert clear_history
    simp

/-! ## C7: get_alert_history -/

def c7Record : AlertRecord :=
  { alert_type := "cpu", message := "CPU usage is 95% (threshold: 90%)",
    value := 95, timestamp := 0 }

def c7State : AlertManager :=
  { thresholds := [], alert_handlers := [], alert_history := [c7Record],
    cooldown_period := 300, last_alerts := [] }

/-- C7 counterexample: the claim quantifies over every limit, but at
`limit = 0` the Python slice `history[-0:]` is `history[0:]`, the whole
history: with one appended record, `get_alert_history` returns 1 record,
which is more than `limit = 0` records. -/
theorem get_alert_history_limit_zero_counterexample :
    c7State.alert_history.length = 1
    ∧ get_alert_history c7State 0 = [c7Record]
    ∧ ¬((get_alert_history c7State 0).length ≤ 0) := by
  refine ⟨rfl, rfl, ?_⟩
  decide

/-- C7 amended: for every strictly positive limit, `get_alert_history`
returns exactly the last `limit` appended records (the whole history when
fewer have been appended), hence at most `limit` records, as a suffix of the
history — chronological, oldest first. The call itself is a pure function of
the state, so the history is not modified. -/
theorem get_alert_history_positive_limit (st : AlertManager) (limit : Int)
    (hpos : 0 < limit) :
    get_alert_history st limit =
      st.alert_history.drop (st.alert_history.length - limit.toNat)
    ∧ (get_alert_history st limit).length ≤ limit.toNat
    ∧ get_alert_history st limit <:+ st.alert_history := by
  have hdrop : get_alert_history st limit =
      st.alert_history.drop (st.alert_history.length - limit.toNat) := by
    unfold get_alert_history pySliceFrom
    have hneg : -limit < 0 := by omega
    rw [if_pos hneg]
    congr 1
    omega
  refine ⟨hdrop, ?_, ?_⟩
  · rw [hdrop, List.length_drop]
    omega
  · rw [hdrop]
    exact List.drop_suffix _ _

/-- Witness for the amended C7 at a concrete positive limit. -/
theorem get_alert_history_positive_limit_witness :
    get_alert_history c7State 1 =
      c7State.alert_history.drop (c7State.alert_history.length - (1 : Int).toNat)
    ∧ (get_alert_history c7State 1).length ≤ (1 : Int).toNat
    ∧ get_alert_history c7State 1 <:+ c7State.alert_history :=
  get_alert_history_positive_limit c7State 1 (by decide)

/-! ## C9: evaluator totality -/

def c9State : AlertManager :=
  { thresholds := [("cpu", { threshold := none, enabled := true })],
    alert_handlers := [], alert_history := [], cooldown_period := 300,
    last_alerts := [] }

/-!
The plain snapshot types above fix every scalar reading to an integer; that
numeric domain is what the other claims quantify over. Python snapshot
values, however, can have any runtime type: `check_cpu` raises `TypeError`
when it compares a non-numeric `total` against the threshold, and
`check_memory` raises `AttributeError` when the value under `"ram"` is not
a dict. The `V`-suffixed types and checks below embed the same source
functions over such arbitrarily-typed values; the agreement lemmas
(`check_cpuV_agrees` …) prove that on numerically-typed snapshots they
coincide with the plain checks, so the two levels describe one program.
-/

/-- A Python value read from a snapshot dict: a number, or a value of any
other runtime type, carried with that type's name. Comparing a non-number
against an `int` raises `TypeError`. -/
inductive PyVal where
  | num (n : Int)
  | other (typeName : String)
  deriving DecidableEq, Repr

/-- CPU data with an arbitrarily-typed `"total"` value. -/
structure CpuDataV where
  total : Option PyVal
  deriving DecidableEq, Repr

/-- The `"ram"` sub-dict with an arbitrarily-typed `"percent"` value. -/
structure RamDataV where
  percent : Option PyVal
  deriving DecidableEq, Repr

/-- The value under the `"ram"` key: a dict, or a value of some other type
(calling `.get` on it raises `AttributeError`). -/
inductive RamField where
  | dict (d : RamDataV)
  | other (typeName : String)
  deriving DecidableEq, Repr

/-- Memory data with an arbitrarily-typed `"ram"` value. -/
structure MemoryDataV where
  ram : Option RamField
  deriving DecidableEq, Repr

/-- A disk partition with an arbitrarily-typed `"percent"` value. -/
structure PartitionV where
  percent : Option PyVal
  mountpoint : Option String
  deriving DecidableEq, Repr

/-- Disk data over arbitrarily-typed partitions. -/
structure DiskDataV where
  partitions : Option (List PartitionV)
  deriving DecidableEq, Repr

/-- A sensor entry with an arbitrarily-typed `"current"` value. -/
structure TempEntryV where
  current : Option PyVal
  label : Option String
  deriving DecidableEq, Repr

/-- Sensor data over arbitrarily-typed entries. -/
structure SensorDataV where
  temperatures : Option (List (String × Option (List TempEntryV)))
  deriving DecidableEq, Repr

/-- A snapshot over arbitrarily-typed values. -/
structure SystemDataV where
  cpu : Option CpuDataV
  memory : Option MemoryDataV
  disk : Option DiskDataV
  sensors : Option SensorDataV
  deriving DecidableEq, Repr

/-- Embeds `AlertManager.check_cpu` over arbitrarily-typed values: the
comparison `current > threshold` raises `TypeError` on a non-number. -/
def check_cpuV (st : AlertManager) (now : Int) (cpu_data : CpuDataV) :
    Except String (AlertManager × List HandlerCall) :=
  if !(enabledFor st.thresholds "cpu") then .ok (st, [])
  else do
    let entry ← dictGet st.thresholds "cpu"
    let threshold ← entryThreshold entry
    match cpu_data.total.getD (.num 0) with
    | .other t => .error ("TypeError: not supported between " ++ t ++ " and int")
    | .num current =>
      if current > threshold then
        .ok (triggerAlert st now "cpu" (cpuMessage current threshold) current)
      else
        .ok (st, [])

/-- Embeds `memory_data.get("ram", {}).get("percent", 0)`: the inner `.get`
raises `AttributeError` when the `"ram"` value is not a dict. -/
def ramPercentV (memory_data : MemoryDataV) : Except String PyVal :=
  match memory_data.ram with
  | none => .ok (.num 0)
  | some (.dict d) => .ok (d.percent.getD (.num 0))
  | some (.other t) =>
      .error ("AttributeError: " ++ t ++ " object has no attribute get")

/-- Embeds `AlertManager.check_memory` over arbitrarily-typed values. -/
def check_memoryV (st : AlertManager) (now : Int) (memory_data : MemoryDataV) :
    Except String (AlertManager × List HandlerCall) :=
  if !(enabledFor st.thresholds "memory") then .ok (st, [])
  else do
    let entry ← dictGet st.thresholds "memory"
    let threshold ← entryThreshold entry
    let cur ← ramPercentV memory_data
    match cur with
    | .other t => .error ("TypeError: not supported between " ++ t ++ " and int")
    | .num current =>
      if current > threshold then
        .ok (triggerAlert st now "memory" (memoryMessage current threshold) current)
      else
        .ok (st, [])

/-- The partition loop of `check_disk` over arbitrarily-typed values. -/
def diskLoopV (st : AlertManager) (now threshold : Int) :
    List PartitionV → Except String (AlertManager × List HandlerCall)
  | [] => .ok (st, [])
  | p :: rest =>
    let mountpoint := p.mountpoint.getD ""
    match p.percent.getD (.num 0) with
    | .other t => .error ("TypeError: not supported between " ++ t ++ " and int")
    | .num current =>
      if current > threshold then do
        let res := triggerAlert st now "disk"
          (diskMessage mountpoint current threshold) current
        let res' ← diskLoopV res.1 now threshold rest
        .ok (res'.1, res.2 ++ res'.2)
      else diskLoopV st now threshold rest

/-- Embeds `AlertManager.check_disk` over arbitrarily-typed values. -/
def check_diskV (st : AlertManager) (now : Int) (disk_data : DiskDataV) :
    Except String (AlertManager × List HandlerCall) :=
  if !(enabledFor st.thresholds "disk") then .ok (st, [])
  else do
    let entry ← dictGet st.thresholds "disk"
    let threshold ← entryThreshold entry
    diskLoopV st now threshold (disk_data.partitions.getD [])

/-- The inner entry loop of `check_temperature` over arbitrarily-typed
values. -/
def tempEntryLoopV (st : AlertManager) (now threshold : Int)
    (sensor_name : String) :
    List TempEntryV → Except String (AlertManager × List HandlerCall)
  | [] => .ok (st, [])
  | e :: rest =>
    let label := e.label.getD sensor_name
    match e.current.getD (.num 0) with
    | .other t => .error ("TypeError: not supported between " ++ t ++ " and int")
    | .num current =>
      if current > threshold then do
        let res := triggerAlert st now "temperature"
          (temperatureMessage label current threshold) current
        let res' ← tempEntryLoopV res.1 now threshold sensor_name rest
        .ok (res'.1, res.2 ++ res'.2)
      else tempEntryLoopV st now threshold sensor_name rest

/-- The outer sensor loop of `check_temperature` over arbitrarily-typed
values; non-list values are still skipped by the `isinstance` test. -/
def tempSensorLoopV (st : AlertManager) (now threshold : Int) :
    List (String × Option (List TempEntryV)) →
      Except String (AlertManager × List HandlerCall)
  | [] => .ok (st, [])
  | (name, entries) :: rest =>
    match entries with
    | some l => do
        let res ← tempEntryLoopV st now threshold name l
        let res' ← tempSensorLoopV res.1 now threshold rest
        .ok (res'.1, res.2 ++ res'.2)
    | none => tempSensorLoopV st now threshold rest

/-- Embeds `AlertManager.check_temperature` over arbitrarily-typed values. -/
def check_temperatureV (st : AlertManager) (now : Int)
    (sensor_data : SensorDataV) :
    Except String (AlertManager × List HandlerCall) :=
  if !(enabledFor st.thresholds "temperature") then .ok (st, [])
  else do
    let entry ← dictGet st.thresholds "temperature"
    let threshold ← entryThreshold entry
    tempSensorLoopV st now threshold (sensor_data.temperatures.getD [])

/-- Embeds `AlertManager.check_all` over arbitrarily-typed values. -/
def check_allV (st : AlertManager) (now : Int) (system_data : SystemDataV) :
    Except String (AlertManager × List HandlerCall) := do
  let r1 ← checkIfPresent check_cpuV st now system_data.cpu
  let r2 ← checkIfPresent check_memoryV r1.1 now system_data.memory
  let r3 ← checkIfPresent check_diskV r2.1 now system_data.disk
  let r4 ← checkIfPresent check_temperatureV r3.1 now system_data.sensors
  .ok (r4.1, r1.2 ++ r2.2 ++ r3.2 ++ r4.2)

def c9CpuEnabledState : AlertManager :=
  { thresholds := [("cpu", { threshold := some 90, enabled := true })],
    alert_handlers := [], alert_history := [], cooldown_period := 300,
    last_alerts := [] }

def c9MemEnabledState : AlertManager :=
  { thresholds := [("memory", { threshold := some 80, enabled := true })],
    alert_handlers := [], alert_history := [], cooldown_period := 300,
    last_alerts := [] }

def c9DiskEnabledState : AlertManager :=
  { thresholds := [("disk", { threshold := some 85, enabled := true })],
    alert_handlers := [], alert_history := [], cooldown_period := 300,
    last_alerts := [] }

def c9TempEnabledState : AlertManager :=
  { thresholds := [("temperature", { threshold := some 80, enabled := true })],
    alert_handlers := [], alert_history := [], cooldown_period := 300,
    last_alerts := [] }

/-- C9 counterexample: each way the evaluator raises, at concrete inputs.
(a) An enabled `cpu` entry lacking the `"threshold"` key: `check_cpu`
evaluates `thresholds["cpu"]["threshold"]` before any comparison and raises
`KeyError` even on an ordinary snapshot; `check_all` propagates it.
(b) A complete config but a non-numeric reading: the comparison
`current > threshold` raises `TypeError` in `check_cpu` (propagated by
`check_all`), in `check_disk` (partition percent) and in
`check_temperature` (sensor current). (c) A non-dict `"ram"` value:
`check_memory` raises `AttributeError` at `.get("percent", 0)`. -/
theorem evaluator_raises_on_illtyped_inputs :
    check_cpuV c9State 0 { total := some (.num 50) } =
      .error "KeyError: threshold"
    ∧ check_allV c9State 0
        { cpu := some { total := some (.num 50) }, memory := none,
          disk := none, sensors := none } = .error "KeyError: threshold"
    ∧ check_cpuV c9CpuEnabledState 0 { total := some (.other "str") } =
        .error "TypeError: not supported between str and int"
    ∧ check_allV c9CpuEnabledState 0
        { cpu := some { total := some (.other "str") }, memory := none,
          disk := none, sensors := none } =
        .error "TypeError: not supported between str and int"
    ∧ check_memoryV c9MemEnabledState 0 { ram := some (.other "int") } =
        .error "AttributeError: int object has no attribute get"
    ∧ check_diskV c9DiskEnabledState 0
        { partitions := some [{ percent := some (.other "NoneType"),
                                mountpoint := some "/" }] } =
        .error "TypeError: not supported between NoneType and int"
    ∧ check_temperatureV c9TempEnabledState 0
        { temperatures := some [("coretemp", some [{ current := some (.other "str"),
                                                     label := none }])] } =
        .error "TypeError: not supported between str and int" :=
  ⟨rfl, rfl, rfl, rfl, rfl, rfl, rfl⟩

/-! ## C1: cooldown gate transition -/

def cpuScenario0 : AlertManager :=
  { thresholds := [("cpu", { threshold := some 90, enabled := true })],
    alert_handlers := [], alert_history := [], cooldown_period := 300,
    last_alerts := [] }

/-- One monitoring tick of the C1 scenario: run `check_cpu` at time `now`
with a snapshot reading `total`, keeping the state (errors cannot occur in
this scenario and would keep the state unchanged). -/
def cpuTick (st : AlertManager) (now total : Int) : AlertManager :=
  match check_cpu st now { total := some total } with
  | .ok r => r.1
  | .error _ => st

def cpuScenario1 : AlertManager := cpuTick cpuScenario0 0 95
def cpuScenario2 : AlertManager := cpuTick cpuScenario1 60 96
def cpuScenario3 : AlertManager := cpuTick cpuScenario2 301 97

/-- C1: a candidate for kind `k` at time `now` fires iff `k` has no recorded
last-fire time or `now - last ≥ cooldown_period`; on firing, `last_alerts[k]`
is set to `now`, exactly one record `(k, msg, v, now)` is appended to the
history, and the candidate is forwarded to every handler. In the concrete
scenario (cpu limit 90 enabled, window 300 s), ticks at T=0 (cpu 95),
T=60 (cpu 96) and T=301 (cpu 97) leave exactly 2 history records, the
T=60 tick being suppressed, and the first record's message contains both
"95" and "90". -/
theorem cooldown_gate_transition :
    (∀ (st : AlertManager) (now : Int) (k msg : String) (v : Int),
      (alertFires st now k = true ↔
        List.lookup k st.last_alerts = none ∨
          ∃ last, List.lookup k st.last_alerts = some last ∧
            st.cooldown_period ≤ now - last)
      ∧ (alertFires st now k = true →
          (triggerAlert st now k msg v).1.last_alerts = setKey st.last_alerts k now
          ∧ List.lookup k (triggerAlert st now k msg v).1.last_alerts = some now
          ∧ (triggerAlert st now k msg v).1.alert_history =
              st.alert_history ++
                [{ alert_type := k, message := msg, value := v, timestamp := now }]
          ∧ (triggerAlert st now k msg v).2 =
              st.alert_handlers.map (fun h => callHandler h k msg v)))
    ∧ check_cpu cpuScenario0 0 { total := some 95 } = .ok (cpuScenario1, [])
    ∧ check_cpu cpuScenario1 60 { total := some 96 } = .ok (cpuScenario2, [])
    ∧ check_cpu cpuScenario2 301 { total := some 97 } = .ok (cpuScenario3, [])
    ∧ cpuScenario1.alert_history.length = 1
    ∧ cpuScenario2.alert_history = cpuScenario1.alert_history
    ∧ cpuScenario3.alert_history.length = 2
    ∧ (∃ r, cpuScenario1.alert_history = [r]
        ∧ List.IsInfix "95".toList r.message.toList
        ∧ List.IsInfix "90".toList r.message.toList) := by
  refine ⟨?_, rfl, rfl, rfl, rfl, by decide, by decide, ?_⟩
  · intro st now k msg v
    constructor
    · unfold alertFires
      rcases hl : List.lookup k st.last_alerts with _ | last
      · simp
      · simp [not_lt]
    · intro hf
      rw [triggerAlert_of_fires st now k msg v hf]
      exact ⟨rfl, lookup_setKey_self st.last_alerts k now, rfl, rfl⟩
  · refine ⟨{ alert_type := "cpu", message := cpuMessage 95 90,
              value := 95, timestamp := 0 }, by decide, by decide, by decide⟩

def c1WitnessState : AlertManager :=
  { thresholds := [], alert_handlers := [], alert_history := [],
    cooldown_period := 300, last_alerts := [] }

/-- Witness for C1: a fired candidate at a concrete input appends its record. -/
theorem cooldown_gate_transition_witness :
    (triggerAlert c1WitnessState 7 "cpu" "m" 5).1.alert_history =
      c1WitnessState.alert_history ++
        [{ alert_type := "cpu", message := "m", value := 5, timestamp := 7 }] :=
  ((cooldown_gate_transition.1 c1WitnessState 7 "cpu" "m" 5).2 (by decide)).2.2.1

/-! ## C3: handler isolation -/

/-- C3: when a candidate fires with N registered handlers, the invocation
trace is exactly one call per handler, in registration order, each with
`(kind, message, value)`; a raising handler's exception is caught as a
`.caught` outcome (so nothing propagates — the result type of
`triggerAlert` is total) and does not prevent later handlers, nor does any
outcome alter the appended history record; a suppressed candidate invokes
no handler. -/
theorem handler_isolation (st : AlertManager) (now : Int) (k msg : String)
    (v : Int) :
    (alertFires st now k = true →
      (triggerAlert st now k msg v).2 =
          st.alert_handlers.map (fun h => callHandler h k msg v)
      ∧ (triggerAlert st now k msg v).2.length = st.alert_handlers.length
      ∧ (∀ c ∈ (triggerAlert st now k msg v).2,
          c.alert_type = k ∧ c.message = msg ∧ c.value = v)
      ∧ (triggerAlert st now k msg v).1.alert_history =
          st.alert_history ++
            [{ alert_type := k, message := msg, value := v, timestamp := now }])
    ∧ (∀ (h : Handler) (e : String), h k msg v = .error e →
        callHandler h k msg v =
          { alert_type := k, message := msg, value := v, outcome := .caught e })
    ∧ (alertFires st now k = false → (triggerAlert st now k msg v).2 = []) := by
  refine ⟨?_, ?_, ?_⟩
  · intro hf
    rw [triggerAlert_of_fires st now k msg v hf]
    refine ⟨rfl, by simp [fireAlert], ?_, rfl⟩
    intro c hc
    simp only [fireAlert, List.mem_map] at hc
    obtain ⟨h, _, rfl⟩ := hc
    exact ⟨rfl, rfl, rfl⟩
  · intro h e he
    unfold callHandler
    rw [he]
  · intro hs
    rw [triggerAlert_of_suppressed st now k msg v hs]

def c3State : AlertManager :=
  { thresholds := [],
    alert_handlers := [fun _ _ _ => .error "boom", fun _ _ _ => .ok ()],
    alert_history := [], cooldown_period := 300, last_alerts := [] }

/-- Witness for C3: with two handlers, the first always raising, both are
still invoked and the history record survives. -/
theorem handler_isolation_witness :
    (triggerAlert c3State 0 "cpu" "m" 1).2.length = c3State.alert_handlers.length
    ∧ (triggerAlert c3State 0 "cpu" "m" 1).1.alert_history =
        c3State.alert_history ++
          [{ alert_type := "cpu", message := "m", value := 1, timestamp := 0 }] :=
  ⟨((handler_isolation c3State 0 "cpu" "m" 1).1 (by decide)).2.1,
   ((handler_isolation c3State 0 "cpu" "m" 1).1 (by decide)).2.2.2⟩

/-! ## C2: evaluator fire condition -/

theorem ok_bind {α β : Type} (a : α) (f : α → Except String β) :
    ((Except.ok a : Except String α) >>= f) = f a := rfl

theorem error_bind {α β : Type} (e : String) (f : α → Except String β) :
    ((Except.error e : Except String α) >>= f) = Except.error e := rfl

/-- C2: `check_cpu`'s evaluation produces an alert candidate iff the `cpu`
config entry is enabled and the reading `total` (0 when absent) is strictly
greater than its configured limit; likewise `check_memory` with the
`ram.percent` reading. Consequently a disabled or absent entry never
produces a candidate and a reading equal to the limit does not fire. The
second conjunct pins down the produced candidate itself. -/
theorem evaluator_fire_condition (cfg : Config) (cpu_data : CpuData)
    (memory_data : MemoryData) :
    ((∃ m v, cpuCandidate cfg cpu_data = .ok (some (m, v))) ↔
      enabledFor cfg "cpu" = true ∧
        ∃ lim, (List.lookup "cpu" cfg).bind (fun e => e.threshold) = some lim ∧
          lim < cpu_data.total.getD 0)
    ∧ (∀ lim, enabledFor cfg "cpu" = true →
        (List.lookup "cpu" cfg).bind (fun e => e.threshold) = some lim →
        lim < cpu_data.total.getD 0 →
        cpuCandidate cfg cpu_data =
          .ok (some (cpuMessage (cpu_data.total.getD 0) lim,
                     cpu_data.total.getD 0)))
    ∧ ((∃ m v, memoryCandidate cfg memory_data = .ok (some (m, v))) ↔
      enabledFor cfg "memory" = true ∧
        ∃ lim, (List.lookup "memory" cfg).bind (fun e => e.threshold) = some lim ∧
          lim < ((memory_data.ram.getD { percent := none }).percent).getD 0) := by
  refine ⟨?_, ?_, ?_⟩
  · rcases hl : List.lookup "cpu" cfg with _ | e
    · simp [cpuCandidate, enabledFor, hl]
    · by_cases he : e.enabled
      · rcases ht : e.threshold with _ | lim
        · simp [cpuCandidate, enabledFor, dictGet, entryThreshold, ok_bind, error_bind, hl, he, ht]
        · by_cases hcmp : lim < cpu_data.total.getD 0
          · simp [cpuCandidate, enabledFor, dictGet, entryThreshold, ok_bind, error_bind, hl, he, ht,
              hcmp]
          · simp [cpuCandidate, enabledFor, dictGet, entryThreshold, ok_bind, error_bind, hl, he, ht,
              hcmp]
      · simp only [Bool.not_eq_true] at he
        simp [cpuCandidate, enabledFor, hl, he]
  · intro lim hen hbind hlt
    rcases hl : List.lookup "cpu" cfg with _ | e
    · rw [hl] at hbind; simp at hbind
    · rw [hl] at hbind
      simp only [Option.some_bind] at hbind
      have he : e.enabled = true := by
        unfold enabledFor at hen; rw [hl] at hen; exact hen
      simp [cpuCandidate, enabledFor, dictGet, entryThreshold, ok_bind, error_bind, hl, he, hbind, hlt]
  · rcases hl : List.lookup "memory" cfg with _ | e
    · simp [memoryCandidate, enabledFor, hl]
    · by_cases he : e.enabled
      · rcases ht : e.threshold with _ | lim
        · simp [memoryCandidate, enabledFor, dictGet, entryThreshold, ok_bind, error_bind, hl, he, ht]
        · by_cases hcmp :
            lim < ((memory_data.ram.getD { percent := none }).percent).getD 0
          · simp [memoryCandidate, enabledFor, dictGet, entryThreshold, ok_bind, error_bind, hl, he,
              ht, hcmp]
          · simp [memoryCandidate, enabledFor, dictGet, entryThreshold, ok_bind, error_bind, hl, he,
              ht, hcmp]
      · simp only [Bool.not_eq_true] at he
        simp [memoryCandidate, enabledFor, hl, he]

def c2Config : Config := [("cpu", { threshold := some 90, enabled := true })]

/-- Witness for C2: a concrete enabled config and an over-limit reading
produce exactly the expected candidate. -/
theorem evaluator_fire_condition_witness :
    cpuCandidate c2Config { total := some 95 } =
      .ok (some (cpuMessage 95 90, 95)) :=
  (evaluator_fire_condition c2Config { total := some 95 } { ram := none }).2.1
    90 (by decide) (by decide) (by decide)

/-! ## C6: shared per-kind cooldown key for disk partitions -/

/-- C6: with an enabled disk threshold, no recorded last-fire time for
`"disk"`, and a snapshot of two partitions both strictly over the limit,
`check_disk` behaves exactly like a single fire for the first partition:
one history record is appended (message and value of the first partition)
and the second partition's candidate is suppressed by the shared `"disk"`
cooldown key, producing no further record and no further handler calls. -/
theorem shared_disk_cooldown_key (st : AlertManager) (now lim v1 v2 : Int)
    (mp1 mp2 : String)
    (hth : List.lookup "disk" st.thresholds =
      some { threshold := some lim, enabled := true })
    (hla : List.lookup "disk" st.last_alerts = none)
    (hcool : 0 < st.cooldown_period)
    (h1 : lim < v1) (h2 : lim < v2) :
    check_disk st now
        { partitions := some [{ percent := some v1, mountpoint := some mp1 },
                              { percent := some v2, mountpoint := some mp2 }] } =
      .ok (fireAlert st now "disk" (diskMessage mp1 v1 lim) v1)
    ∧ (fireAlert st now "disk" (diskMessage mp1 v1 lim) v1).1.alert_history =
        st.alert_history ++
          [{ alert_type := "disk", message := diskMessage mp1 v1 lim,
             value := v1, timestamp := now }] := by
  have hen : enabledFor st.thresholds "disk" = true := by
    unfold enabledFor; rw [hth]
  have hfire1 : alertFires st now "disk" = true := by
    unfold alertFires; rw [hla]
  have hsup : alertFires (fireAlert st now "disk" (diskMessage mp1 v1 lim) v1).1
      now "disk" = false := by
    unfold alertFires
    have : (fireAlert st now "disk" (diskMessage mp1 v1 lim) v1).1.last_alerts =
        setKey st.last_alerts "disk" now := rfl
    rw [this, lookup_setKey_self]
    simp only [Bool.not_eq_false', decide_eq_true_eq]
    have hcp : (fireAlert st now "disk" (diskMessage mp1 v1 lim) v1).1.cooldown_period =
        st.cooldown_period := rfl
    rw [hcp]
    omega
  have t1 : triggerAlert st now "disk" (diskMessage mp1 v1 lim) v1 =
      fireAlert st now "disk" (diskMessage mp1 v1 lim) v1 :=
    triggerAlert_of_fires _ _ _ _ _ hfire1
  have t2 : triggerAlert (fireAlert st now "disk" (diskMessage mp1 v1 lim) v1).1
        now "disk" (diskMessage mp2 v2 lim) v2 =
      ((fireAlert st now "disk" (diskMessage mp1 v1 lim) v1).1, []) :=
    triggerAlert_of_suppressed _ _ _ _ _ hsup
  refine ⟨?_, rfl⟩
  unfold check_disk
  simp [hen, dictGet, hth, entryThreshold, ok_bind, diskLoop, gt_iff_lt,
    h1, h2, t1, t2]

def c6State : AlertManager :=
  { thresholds := [("disk", { threshold := some 85, enabled := true })],
    alert_handlers := [], alert_history := [], cooldown_period := 300,
    last_alerts := [] }

/-- Witness for C6 at the spec's concrete numbers (limit 85, partitions at
90 and 95). -/
theorem shared_disk_cooldown_key_witness :
    check_disk c6State 0
        { partitions := some [{ percent := some 90, mountpoint := some "/" },
                              { percent := some 95, mountpoint := some "/home" }] } =
      .ok (fireAlert c6State 0 "disk" (diskMessage "/" 90 85) 90)
    ∧ (fireAlert c6State 0 "disk" (diskMessage "/" 90 85) 90).1.alert_history =
        c6State.alert_history ++
          [{ alert_type := "disk", message := diskMessage "/" 90 85,
             value := 90, timestamp := 0 }] :=
  shared_disk_cooldown_key c6State 0 85 90 95 "/" "/home"
    (by decide) (by decide) (by decide) (by decide) (by decide)

/-! ## C8: malformed persisted config is non-fatal and disables alerting -/

/-- C8: a malformed threshold file makes `load_thresholds` report the error
and return the empty mapping, and under an empty mapping no kind is enabled:
`check_all` raises nothing, changes nothing and invokes no handler on any
snapshot. -/
theorem malformed_config_disables_alerting :
    load_thresholds .malformed = ([], true)
    ∧ ∀ (st : AlertManager) (now : Int) (sys : SystemData),
        st.thresholds = [] →
        check_all st now sys = .ok (st, []) := by
  refine ⟨rfl, ?_⟩
  intro st now sys hth
  have hcpu : ∀ d, check_cpu st now d = .ok (st, []) := by
    intro d
    unfold check_cpu cpuCandidate enabledFor
    rw [hth]
    simp [List.lookup]
  have hmem : ∀ d, check_memory st now d = .ok (st, []) := by
    intro d
    unfold check_memory memoryCandidate enabledFor
    rw [hth]
    simp [List.lookup]
  have hdisk : ∀ d, check_disk st now d = .ok (st, []) := by
    intro d
    unfold check_disk enabledFor
    rw [hth]
    simp [List.lookup]
  have htemp : ∀ d, check_temperature st now d = .ok (st, []) := by
    intro d
    unfold check_temperature enabledFor
    rw [hth]
    simp [List.lookup]
  rcases sys with ⟨c, m, d, s⟩
  cases c <;> cases m <;> cases d <;> cases s <;>
    simp [check_all, checkIfPresent, hcpu, hmem, hdisk, htemp, ok_bind]

def c8State : AlertManager :=
  { thresholds := [], alert_handlers := [], alert_history := [],
    cooldown_period := 300, last_alerts := [] }

/-- Witness for C8: under the empty mapping an over-threshold snapshot fires
nothing. -/
theorem malformed_config_disables_alerting_witness :
    check_all c8State 5
        { cpu := some { total := some 99 }, memory := some { ram := some { percent := some 99 } },
          disk := none, sensors := none } =
      .ok (c8State, []) :=
  malformed_config_disables_alerting.2 c8State 5 _ rfl

/-! ## C9 (amended): totality of the evaluator -/

/-- Predicate on a config: every enabled entry carries a `"threshold"` key. -/
def everyEnabledHasThreshold (cfg : Config) : Bool :=
  cfg.all (fun p => !p.2.enabled || p.2.threshold.isSome)

/-- Whether an embedded computation finished without raising. -/
def exceptOk {α : Type} : Except String α → Bool
  | .ok _ => true
  | .error _ => false

theorem exceptOk_bind {α β : Type} (x : Except String α) (f : α → Except String β)
    (hx : exceptOk x = true) (hf : ∀ r, exceptOk (f r) = true) :
    exceptOk (x >>= f) = true := by
  rcases x with e | r
  · simp [exceptOk] at hx
  · rw [ok_bind]
    exact hf r

theorem enabled_has_threshold (cfg : Config) (k : String)
    (hwf : everyEnabledHasThreshold cfg = true)
    (hen : enabledFor cfg k = true) :
    ∃ e t, List.lookup k cfg = some e ∧ e.threshold = some t := by
  induction cfg with
  | nil => simp [enabledFor, List.lookup] at hen
  | cons p rest ih =>
    simp only [everyEnabledHasThreshold, List.all_cons, Bool.and_eq_true] at hwf
    unfold enabledFor at hen
    rcases hb : (k == p.1) with _ | _
    · simp only [List.lookup, hb] at hen ⊢
      exact ih hwf.2 hen
    · simp only [List.lookup, hb] at hen ⊢
      rcases ht : p.2.threshold with _ | t
      · exfalso
        have h1 := hwf.1
        rw [hen, ht] at h1
        simp at h1
      · exact ⟨p.2, t, rfl, ht⟩

theorem triggerAlert_thresholds (st : AlertManager) (now : Int) (k m : String)
    (v : Int) : (triggerAlert st now k m v).1.thresholds = st.thresholds := by
  unfold triggerAlert
  rcases hl : List.lookup k st.last_alerts with _ | last <;> simp only [hl]
  · rfl
  · split
    · rfl
    · rfl

/-- A scalar snapshot sub-field is numeric or absent (absent is read as 0). -/
def numericVal : Option PyVal → Bool
  | none => true
  | some (.num _) => true
  | some (.other _) => false

/-- All scalar sub-fields of a CPU reading are numeric. -/
def cpuNumeric (d : CpuDataV) : Bool := numericVal d.total

/-- The `"ram"` value, when present, is a dict with a numeric percent. -/
def memoryNumeric (d : MemoryDataV) : Bool :=
  match d.ram with
  | none => true
  | some (.dict r) => numericVal r.percent
  | some (.other _) => false

/-- Every partition percent is numeric. -/
def diskNumeric (d : DiskDataV) : Bool :=
  (d.partitions.getD []).all (fun p => numericVal p.percent)

/-- Every list-valued sensor's entries carry numeric currents. -/
def sensorNumeric (d : SensorDataV) : Bool :=
  (d.temperatures.getD []).all (fun p =>
    match p.2 with
    | none => true
    | some es => es.all (fun e => numericVal e.current))

/-- Lifts a per-reading predicate to an optional snapshot key. -/
def optNumeric {α : Type} (P : α → Bool) : Option α → Bool
  | none => true
  | some d => P d

/-- All present readings of a snapshot are well-typed. -/
def systemNumeric (sys : SystemDataV) : Bool :=
  optNumeric cpuNumeric sys.cpu && optNumeric memoryNumeric sys.memory &&
    optNumeric diskNumeric sys.disk && optNumeric sensorNumeric sys.sensors

theorem diskLoopV_good (ps : List PartitionV) :
    ∀ (st : AlertManager) (now t : Int),
      ps.all (fun p => numericVal p.percent) = true →
      ∃ r, diskLoopV st now t ps = .ok r ∧ r.1.thresholds = st.thresholds := by
  induction ps with
  | nil =>
    intro st now t _
    exact ⟨(st, []), rfl, rfl⟩
  | cons p rest ih =>
    intro st now t hall
    simp only [List.all_cons, Bool.and_eq_true] at hall
    obtain ⟨n, hn⟩ : ∃ n, p.percent.getD (.num 0) = .num n := by
      rcases hp : p.percent with _ | v
      · exact ⟨0, rfl⟩
      · rcases v with n | tn
        · exact ⟨n, rfl⟩
        · have h1 := hall.1
          rw [hp] at h1
          simp [numericVal] at h1
    simp only [diskLoopV, hn]
    by_cases hcmp : n > t
    · rw [if_pos hcmp]
      obtain ⟨r', hr', ht'⟩ := ih
        (triggerAlert st now "disk"
          (diskMessage (p.mountpoint.getD "") n t) n).1 now t hall.2
      rw [hr', ok_bind]
      refine ⟨(r'.1, _ ++ r'.2), rfl, ?_⟩
      rw [ht', triggerAlert_thresholds]
    · rw [if_neg hcmp]
      exact ih st now t hall.2

theorem tempEntryLoopV_good (es : List TempEntryV) :
    ∀ (st : AlertManager) (now t : Int) (name : String),
      es.all (fun e => numericVal e.current) = true →
      ∃ r, tempEntryLoopV st now t name es = .ok r ∧
        r.1.thresholds = st.thresholds := by
  induction es with
  | nil =>
    intro st now t name _
    exact ⟨(st, []), rfl, rfl⟩
  | cons e rest ih =>
    intro st now t name hall
    simp only [List.all_cons, Bool.and_eq_true] at hall
    obtain ⟨n, hn⟩ : ∃ n, e.current.getD (.num 0) = .num n := by
      rcases hp : e.current with _ | v
      · exact ⟨0, rfl⟩
      · rcases v with n | tn
        · exact ⟨n, rfl⟩
        · have h1 := hall.1
          rw [hp] at h1
          simp [numericVal] at h1
    simp only [tempEntryLoopV, hn]
    by_cases hcmp : n > t
    · rw [if_pos hcmp]
      obtain ⟨r', hr', ht'⟩ := ih
        (triggerAlert st now "temperature"
          (temperatureMessage (e.label.getD name) n t) n).1 now t name hall.2
      rw [hr', ok_bind]
      refine ⟨(r'.1, _ ++ r'.2), rfl, ?_⟩
      rw [ht', triggerAlert_thresholds]
    · rw [if_neg hcmp]
      exact ih st now t name hall.2

theorem tempSensorLoopV_good (ss : List (String × Option (List TempEntryV))) :
    ∀ (st : AlertManager) (now t : Int),
      ss.all (fun p => match p.2 with
        | none => true
        | some es => es.all (fun e => numericVal e.current)) = true →
      ∃ r, tempSensorLoopV st now t ss = .ok r ∧
        r.1.thresholds = st.thresholds := by
  induction ss with
  | nil =>
    intro st now t _
    exact ⟨(st, []), rfl, rfl⟩
  | cons p rest ih =>
    intro st now t hall
    simp only [List.all_cons, Bool.and_eq_true] at hall
    rcases p with ⟨name, entries⟩
    rcases entries with _ | es
    · simp only [tempSensorLoopV]
      exact ih st now t hall.2
    · obtain ⟨r1, h1, t1⟩ := tempEntryLoopV_good es st now t name hall.1
      simp only [tempSensorLoopV]
      rw [h1, ok_bind]
      obtain ⟨r2, h2, t2⟩ := ih r1.1 now t hall.2
      rw [h2, ok_bind]
      exact ⟨(r2.1, r1.2 ++ r2.2), rfl, by rw [t2, t1]⟩

theorem check_cpuV_good (st : AlertManager) (now : Int) (d : CpuDataV)
    (hwf : everyEnabledHasThreshold st.thresholds = true)
    (hnum : cpuNumeric d = true) :
    ∃ r, check_cpuV st now d = .ok r ∧ r.1.thresholds = st.thresholds := by
  unfold check_cpuV
  rcases hen : enabledFor st.thresholds "cpu" with _ | _
  · exact ⟨(st, []), by simp [hen], rfl⟩
  · obtain ⟨e, t, hl, ht⟩ := enabled_has_threshold _ _ hwf hen
    obtain ⟨n, hn⟩ : ∃ n, d.total.getD (.num 0) = .num n := by
      rcases hp : d.total with _ | v
      · exact ⟨0, rfl⟩
      · rcases v with n | tn
        · exact ⟨n, rfl⟩
        · simp [cpuNumeric, numericVal, hp] at hnum
    by_cases hcmp : n > t
    · exact ⟨triggerAlert st now "cpu" (cpuMessage n t) n,
        by simp [hen, dictGet, hl, entryThreshold, ht, ok_bind, hn, hcmp],
        triggerAlert_thresholds _ _ _ _ _⟩
    · exact ⟨(st, []),
        by simp [hen, dictGet, hl, entryThreshold, ht, ok_bind, hn, hcmp], rfl⟩

theorem check_memoryV_good (st : AlertManager) (now : Int) (d : MemoryDataV)
    (hwf : everyEnabledHasThreshold st.thresholds = true)
    (hnum : memoryNumeric d = true) :
    ∃ r, check_memoryV st now d = .ok r ∧ r.1.thresholds = st.thresholds := by
  unfold check_memoryV
  rcases hen : enabledFor st.thresholds "memory" with _ | _
  · exact ⟨(st, []), by simp [hen], rfl⟩
  · obtain ⟨e, t, hl, ht⟩ := enabled_has_threshold _ _ hwf hen
    obtain ⟨n, hn⟩ : ∃ n, ramPercentV d = .ok (.num n) := by
      rcases hr : d.ram with _ | f
      · exact ⟨0, by rw [ramPercentV, hr]⟩
      · rcases f with rd | tn
        · rcases hp : rd.percent with _ | v
          · exact ⟨0, by simp [ramPercentV, hr, hp]⟩
          · rcases v with n | tn2
            · exact ⟨n, by simp [ramPercentV, hr, hp]⟩
            · simp [memoryNumeric, numericVal, hr, hp] at hnum
        · simp [memoryNumeric, hr] at hnum
    by_cases hcmp : n > t
    · exact ⟨triggerAlert st now "memory" (memoryMessage n t) n,
        by simp [hen, dictGet, hl, entryThreshold, ht, ok_bind, hn, hcmp],
        triggerAlert_thresholds _ _ _ _ _⟩
    · exact ⟨(st, []),
        by simp [hen, dictGet, hl, entryThreshold, ht, ok_bind, hn, hcmp], rfl⟩

theorem check_diskV_good (st : AlertManager) (now : Int) (d : DiskDataV)
    (hwf : everyEnabledHasThreshold st.thresholds = true)
    (hnum : diskNumeric d = true) :
    ∃ r, check_diskV st now d = .ok r ∧ r.1.thresholds = st.thresholds := by
  unfold check_diskV
  rcases hen : enabledFor st.thresholds "disk" with _ | _
  · exact ⟨(st, []), by simp [hen], rfl⟩
  · obtain ⟨e, t, hl, ht⟩ := enabled_has_threshold _ _ hwf hen
    obtain ⟨r, hr, htr⟩ := diskLoopV_good (d.partitions.getD []) st now t
      (by simpa [diskNumeric] using hnum)
    exact ⟨r, by simp [hen, dictGet, hl, entryThreshold, ht, ok_bind, hr], htr⟩

theorem check_temperatureV_good (st : AlertManager) (now : Int)
    (d : SensorDataV)
    (hwf : everyEnabledHasThreshold st.thresholds = true)
    (hnum : sensorNumeric d = true) :
    ∃ r, check_temperatureV st now d = .ok r ∧
      r.1.thresholds = st.thresholds := by
  unfold check_temperatureV
  rcases hen : enabledFor st.thresholds "temperature" with _ | _
  · exact ⟨(st, []), by simp [hen], rfl⟩
  · obtain ⟨e, t, hl, ht⟩ := enabled_has_threshold _ _ hwf hen
    obtain ⟨r, hr, htr⟩ := tempSensorLoopV_good (d.temperatures.getD []) st now t
      (by simpa [sensorNumeric] using hnum)
    exact ⟨r, by simp [hen, dictGet, hl, entryThreshold, ht, ok_bind, hr], htr⟩

theorem checkIfPresent_goodP {α : Type}
    (f : AlertManager → Int → α → Except String (AlertManager × List HandlerCall))
    (P : α → Bool)
    (hf : ∀ (st' : AlertManager) (now : Int) (d : α),
      everyEnabledHasThreshold st'.thresholds = true → P d = true →
      ∃ r, f st' now d = .ok r ∧ r.1.thresholds = st'.thresholds)
    (st' : AlertManager) (now : Int) (o : Option α)
    (hwf : everyEnabledHasThreshold st'.thresholds = true)
    (ho : optNumeric P o = true) :
    ∃ r, checkIfPresent f st' now o = .ok r ∧
      r.1.thresholds = st'.thresholds := by
  cases o with
  | none => exact ⟨(st', []), rfl, rfl⟩
  | some d => exact hf st' now d hwf ho

/-- C9 amended: the exhibited raises force two restrictions, one per failure
mode of the code: every enabled config entry must carry a threshold value
(else `KeyError`), and every present scalar sub-field of the snapshot must
be numeric, with a dict-valued `"ram"` (else `TypeError` at the comparison,
`AttributeError` at `.get`). Under exactly these restrictions `check_cpu`,
`check_memory`, `check_disk`, `check_temperature` — and `check_all` on any
snapshot — terminate without raising, and a missing sub-field is treated
exactly as the reading 0. -/
theorem evaluator_total_on_wellformed_inputs (st : AlertManager) (now : Int)
    (hwf : everyEnabledHasThreshold st.thresholds = true) :
    (∀ d, cpuNumeric d = true → exceptOk (check_cpuV st now d) = true)
    ∧ (∀ d, memoryNumeric d = true → exceptOk (check_memoryV st now d) = true)
    ∧ (∀ d, diskNumeric d = true → exceptOk (check_diskV st now d) = true)
    ∧ (∀ d, sensorNumeric d = true →
        exceptOk (check_temperatureV st now d) = true)
    ∧ (∀ sys, systemNumeric sys = true →
        exceptOk (check_allV st now sys) = true)
    ∧ check_cpuV st now { total := none } =
        check_cpuV st now { total := some (.num 0) }
    ∧ check_memoryV st now { ram := none } =
        check_memoryV st now { ram := some (.dict { percent := none }) } := by
  refine ⟨?_, ?_, ?_, ?_, ?_, rfl, rfl⟩
  · intro d hnum
    obtain ⟨r, hr, _⟩ := check_cpuV_good st now d hwf hnum
    rw [hr]; rfl
  · intro d hnum
    obtain ⟨r, hr, _⟩ := check_memoryV_good st now d hwf hnum
    rw [hr]; rfl
  · intro d hnum
    obtain ⟨r, hr, _⟩ := check_diskV_good st now d hwf hnum
    rw [hr]; rfl
  · intro d hnum
    obtain ⟨r, hr, _⟩ := check_temperatureV_good st now d hwf hnum
    rw [hr]; rfl
  · intro sys hnum
    rcases sys with ⟨c, m, d, s⟩
    simp only [systemNumeric, Bool.and_eq_true] at hnum
    unfold check_allV
    obtain ⟨r1, h1, t1⟩ := checkIfPresent_goodP check_cpuV cpuNumeric
      check_cpuV_good st now c hwf hnum.1.1.1
    have hwf1 : everyEnabledHasThreshold r1.1.thresholds = true := by
      rw [t1]; exact hwf
    obtain ⟨r2, h2, t2⟩ := checkIfPresent_goodP check_memoryV memoryNumeric
      check_memoryV_good r1.1 now m hwf1 hnum.1.1.2
    have hwf2 : everyEnabledHasThreshold r2.1.thresholds = true := by
      rw [t2]; exact hwf1
    obtain ⟨r3, h3, t3⟩ := checkIfPresent_goodP check_diskV diskNumeric
      check_diskV_good r2.1 now d hwf2 hnum.1.2
    have hwf3 : everyEnabledHasThreshold r3.1.thresholds = true := by
      rw [t3]; exact hwf2
    obtain ⟨r4, h4, t4⟩ := checkIfPresent_goodP check_temperatureV sensorNumeric
      check_temperatureV_good r3.1 now s hwf3 hnum.2
    rw [h1, ok_bind, h2, ok_bind, h3, ok_bind, h4, ok_bind]
    rfl

/-! Agreement between the two levels of the embedding: a numerically-typed
snapshot lifts into the arbitrarily-typed world, and on lifted snapshots
every extended check computes exactly what the plain check computes. -/

def liftCpu (d : CpuData) : CpuDataV := { total := d.total.map .num }

def liftMemory (d : MemoryData) : MemoryDataV :=
  { ram := d.ram.map (fun r => .dict { percent := r.percent.map .num }) }

def liftPartition (p : Partition) : PartitionV :=
  { percent := p.percent.map .num, mountpoint := p.mountpoint }

def liftDisk (d : DiskData) : DiskDataV :=
  { partitions := d.partitions.map (List.map liftPartition) }

def liftTempEntry (e : TempEntry) : TempEntryV :=
  { current := e.current.map .num, label := e.label }

def liftSensor (d : SensorData) : SensorDataV :=
  { temperatures := d.temperatures.map
      (List.map (fun p => (p.1, p.2.map (List.map liftTempEntry)))) }

def liftSystem (sys : SystemData) : SystemDataV :=
  { cpu := sys.cpu.map liftCpu, memory := sys.memory.map liftMemory,
    disk := sys.disk.map liftDisk, sensors := sys.sensors.map liftSensor }

theorem check_cpuV_agrees (st : AlertManager) (now : Int) (d : CpuData) :
    check_cpuV st now (liftCpu d) = check_cpu st now d := by
  unfold check_cpuV check_cpu cpuCandidate liftCpu
  rcases hen : enabledFor st.thresholds "cpu" with _ | _
  · simp [hen]
  · rcases hl : List.lookup "cpu" st.thresholds with _ | e
    · exfalso
      unfold enabledFor at hen
      rw [hl] at hen
      simp at hen
    · rcases ht : e.threshold with _ | t
      · simp [hen, dictGet, hl, entryThreshold, ht, ok_bind, error_bind]
      · rcases htot : d.total with _ | n
        · by_cases hcmp : (0 : Int) > t <;>
            simp [hen, dictGet, hl, entryThreshold, ht, ok_bind, htot, hcmp]
        · by_cases hcmp : n > t <;>
            simp [hen, dictGet, hl, entryThreshold, ht, ok_bind, htot, hcmp]

theorem check_memoryV_agrees (st : AlertManager) (now : Int) (d : MemoryData) :
    check_memoryV st now (liftMemory d) = check_memory st now d := by
  unfold check_memoryV check_memory memoryCandidate liftMemory ramPercentV
  rcases hen : enabledFor st.thresholds "memory" with _ | _
  · simp [hen]
  · rcases hl : List.lookup "memory" st.thresholds with _ | e
    · exfalso
      unfold enabledFor at hen
      rw [hl] at hen
      simp at hen
    · rcases ht : e.threshold with _ | t
      · simp [hen, dictGet, hl, entryThreshold, ht, ok_bind, error_bind]
      · rcases hram : d.ram with _ | r
        · by_cases hcmp : (0 : Int) > t <;>
            simp [hen, dictGet, hl, entryThreshold, ht, ok_bind, hram, hcmp]
        · rcases hp : r.percent with _ | n
          · by_cases hcmp : (0 : Int) > t <;>
              simp [hen, dictGet, hl, entryThreshold, ht, ok_bind, hram, hp,
                hcmp]
          · by_cases hcmp : n > t <;>
              simp [hen, dictGet, hl, entryThreshold, ht, ok_bind, hram, hp,
                hcmp]

theorem diskLoopV_agrees (ps : List Partition) :
    ∀ (st : AlertManager) (now t : Int),
      diskLoopV st now t (ps.map liftPartition) = .ok (diskLoop st now t ps) := by
  induction ps with
  | nil =>
    intro st now t
    rfl
  | cons p rest ih =>
    intro st now t
    simp only [List.map_cons, diskLoopV, diskLoop, liftPartition]
    rcases hp : p.percent with _ | n
    · by_cases hcmp : (0 : Int) > t <;> simp [hp, hcmp, ih, ok_bind]
    · by_cases hcmp : n > t <;> simp [hp, hcmp, ih, ok_bind]

theorem check_diskV_agrees (st : AlertManager) (now : Int) (d : DiskData) :
    check_diskV st now (liftDisk d) = check_disk st now d := by
  unfold check_diskV check_disk liftDisk
  rcases hen : enabledFor st.thresholds "disk" with _ | _
  · simp [hen]
  · rcases hl : List.lookup "disk" st.thresholds with _ | e
    · exfalso
      unfold enabledFor at hen
      rw [hl] at hen
      simp at hen
    · rcases ht : e.threshold with _ | t
      · simp [hen, dictGet, hl, entryThreshold, ht, ok_bind, error_bind]
      · rcases hps : d.partitions with _ | ps
        · have h0 := diskLoopV_agrees [] st now t
          simp only [List.map_nil] at h0
          simp [hen, dictGet, hl, entryThreshold, ht, ok_bind, hps, h0]
        · simp [hen, dictGet, hl, entryThreshold, ht, ok_bind, hps,
            diskLoopV_agrees]

theorem tempEntryLoopV_agrees (es : List TempEntry) :
    ∀ (st : AlertManager) (now t : Int) (name : String),
      tempEntryLoopV st now t name (es.map liftTempEntry) =
        .ok (tempEntryLoop st now t name es) := by
  induction es with
  | nil =>
    intro st now t name
    rfl
  | cons e rest ih =>
    intro st now t name
    simp only [List.map_cons, tempEntryLoopV, tempEntryLoop, liftTempEntry]
    rcases hc : e.current with _ | n
    · by_cases hcmp : (0 : Int) > t <;> simp [hc, hcmp, ih, ok_bind]
    · by_cases hcmp : n > t <;> simp [hc, hcmp, ih, ok_bind]

theorem tempSensorLoopV_agrees (ss : List (String × Option (List TempEntry))) :
    ∀ (st : AlertManager) (now t : Int),
      tempSensorLoopV st now t
          (ss.map (fun p => (p.1, p.2.map (List.map liftTempEntry)))) =
        .ok (tempSensorLoop st now t ss) := by
  induction ss with
  | nil =>
    intro st now t
    rfl
  | cons p rest ih =>
    intro st now t
    rcases p with ⟨name, entries⟩
    rcases entries with _ | es
    · simp only [List.map_cons, tempSensorLoopV, tempSensorLoop, Option.map_none']
      exact ih st now t
    · simp only [List.map_cons, tempSensorLoopV, tempSensorLoop, Option.map_some']
      rw [tempEntryLoopV_agrees, ok_bind, ih, ok_bind]

theorem check_temperatureV_agrees (st : AlertManager) (now : Int)
    (d : SensorData) :
    check_temperatureV st now (liftSensor d) = check_temperature st now d := by
  unfold check_temperatureV check_temperature liftSensor
  rcases hen : enabledFor st.thresholds "temperature" with _ | _
  · simp [hen]
  · rcases hl : List.lookup "temperature" st.thresholds with _ | e
    · exfalso
      unfold enabledFor at hen
      rw [hl] at hen
      simp at hen
    · rcases ht : e.threshold with _ | t
      · simp [hen, dictGet, hl, entryThreshold, ht, ok_bind, error_bind]
      · rcases hts : d.temperatures with _ | ss
        · have h0 := tempSensorLoopV_agrees [] st now t
          simp only [List.map_nil] at h0
          simp [hen, dictGet, hl, entryThreshold, ht, ok_bind, hts, h0]
        · simp [hen, dictGet, hl, entryThreshold, ht, ok_bind, hts,
            tempSensorLoopV_agrees]

theorem check_allV_agrees (st : AlertManager) (now : Int) (sys : SystemData) :
    check_allV st now (liftSystem sys) = check_all st now sys := by
  rcases sys with ⟨c, m, d, s⟩
  unfold check_allV check_all liftSystem
  dsimp only
  have hc : ∀ st', checkIfPresent check_cpuV st' now (c.map liftCpu) =
      checkIfPresent check_cpu st' now c := by
    intro st'
    cases c with
    | none => rfl
    | some cd => exact check_cpuV_agrees st' now cd
  have hm : ∀ st', checkIfPresent check_memoryV st' now (m.map liftMemory) =
      checkIfPresent check_memory st' now m := by
    intro st'
    cases m with
    | none => rfl
    | some md => exact check_memoryV_agrees st' now md
  have hd : ∀ st', checkIfPresent check_diskV st' now (d.map liftDisk) =
      checkIfPresent check_disk st' now d := by
    intro st'
    cases d with
    | none => rfl
    | some dd => exact check_diskV_agrees st' now dd
  have hs : ∀ st', checkIfPresent check_temperatureV st' now (s.map liftSensor) =
      checkIfPresent check_temperature st' now s := by
    intro st'
    cases s with
    | none => rfl
    | some sd => exact check_temperatureV_agrees st' now sd
  rw [hc st]
  rcases h1 : checkIfPresent check_cpu st now c with e1 | r1
  · simp only [error_bind]
  · simp only [ok_bind]
    rw [hm r1.1]
    rcases h2 : checkIfPresent check_memory r1.1 now m with e2 | r2
    · simp only [error_bind]
    · simp only [ok_bind]
      rw [hd r2.1]
      rcases h3 : checkIfPresent check_disk r2.1 now d with e3 | r3
      · simp only [error_bind]
      · simp only [ok_bind]
        rw [hs r3.1]

/-! ## C4: broadcast self-healing -/

theorem foldl_disconnect (ds : List Nat) :
    ∀ (m : ConnectionManager),
      (List.foldl disconnect m ds).active_connections =
        m.active_connections.filter (fun x => !(decide (x ∈ ds))) := by
  induction ds with
  | nil =>
    intro m
    simp
  | cons d rest ih =>
    intro m
    rw [List.foldl_cons, ih]
    unfold disconnect
    rw [List.filter_filter]
    apply List.filter_congr
    intro x _
    by_cases hxd : x = d <;> by_cases hxr : x ∈ rest <;>
      simp [List.mem_cons, hxd, hxr]

/-- C4: `broadcast` attempts delivery to every current member exactly once
(the attempt trace is the member list itself, each with the payload), is a
total function (the per-member exception is caught, so nothing propagates),
and when exactly one member's delivery fails it finishes with the registry
containing exactly the members whose delivery succeeded — one fewer than
before, the failed member removed within the same call. -/
theorem broadcast_self_healing (m : ConnectionManager)
    (sendOk : Nat → String → Bool) (payload : String)
    (hnd : m.active_connections.Nodup)
    (hone : (m.active_connections.filter
      (fun c => !(sendOk c payload))).length = 1) :
    (broadcast m sendOk payload).2 =
        m.active_connections.map
          (fun c => { conn := c, payload := payload, ok := sendOk c payload })
    ∧ ((broadcast m sendOk payload).2.map (fun a => a.conn)) =
        m.active_connections
    ∧ ((broadcast m sendOk payload).2.map (fun a => a.conn)).Nodup
    ∧ (∀ a ∈ (broadcast m sendOk payload).2,
        a.payload = payload ∧ a.ok = sendOk a.conn payload)
    ∧ (broadcast m sendOk payload).1.active_connections =
        m.active_connections.filter (fun c => sendOk c payload)
    ∧ (broadcast m sendOk payload).1.active_connections.length + 1 =
        m.active_connections.length
    ∧ (∀ c ∈ (broadcast m sendOk payload).1.active_connections,
        sendOk c payload = true) := by
  have htrace : (broadcast m sendOk payload).2 =
      m.active_connections.map
        (fun c => { conn := c, payload := payload, ok := sendOk c payload }) := rfl
  have hmapconn : ((broadcast m sendOk payload).2.map (fun a => a.conn)) =
      m.active_connections := by
    rw [htrace, List.map_map]
    exact List.map_id _
  have hD : ∀ x,
      x ∈ ((m.active_connections.map
              (fun c => ({ conn := c, payload := payload,
                           ok := sendOk c payload } : SendAttempt))).filter
            (fun a => !a.ok)).map (fun a => a.conn) ↔
        (x ∈ m.active_connections ∧ sendOk x payload = false) := by
    intro x
    simp only [List.mem_map, List.mem_filter]
    constructor
    · rintro ⟨a, ⟨ha, hok⟩, rfl⟩
      obtain ⟨c, hc, rfl⟩ := ha
      refine ⟨hc, ?_⟩
      simpa using hok
    · rintro ⟨hx, hfail⟩
      exact ⟨{ conn := x, payload := payload, ok := sendOk x payload },
        ⟨⟨x, hx, rfl⟩, by simp [hfail]⟩, rfl⟩
  have hconn : (broadcast m sendOk payload).1.active_connections =
      m.active_connections.filter (fun c => sendOk c payload) := by
    show (List.foldl disconnect m _).active_connections = _
    rw [foldl_disconnect]
    apply List.filter_congr
    intro x hx
    cases hs : sendOk x payload
    · have hxD := (hD x).mpr ⟨hx, hs⟩
      simp [hxD]
    · have hxD : ¬(x ∈ ((m.active_connections.map
          (fun c => ({ conn := c, payload := payload,
                       ok := sendOk c payload } : SendAttempt))).filter
            (fun a => !a.ok)).map (fun a => a.conn)) := by
        intro hmem
        rw [((hD x).mp hmem).2] at hs
        exact Bool.false_ne_true hs
      simp [hxD]
  have hlen : (broadcast m sendOk payload).1.active_connections.length + 1 =
      m.active_connections.length := by
    rw [hconn]
    have h2 := List.length_eq_countP_add_countP (l := m.active_connections)
      (fun c => sendOk c payload)
    rw [List.countP_eq_length_filter, List.countP_eq_length_filter] at h2
    have h3 : m.active_connections.filter
          (fun a => decide ¬(sendOk a payload = true)) =
        m.active_connections.filter (fun c => !(sendOk c payload)) := by
      apply List.filter_congr
      intro x _
      cases sendOk x payload <;> rfl
    rw [h3, hone] at h2
    omega
  refine ⟨htrace, hmapconn, ?_, ?_, hconn, hlen, ?_⟩
  · rw [hmapconn]
    exact hnd
  · intro a ha
    rw [htrace] at ha
    simp only [List.mem_map] at ha
    obtain ⟨c, _, rfl⟩ := ha
    exact ⟨rfl, rfl⟩
  · intro c hc
    rw [hconn] at hc
    simp only [List.mem_filter] at hc
    exact hc.2

def c4Manager : ConnectionManager := { active_connections := [1, 2, 3] }

def c4SendOk : Nat → String → Bool := fun c _ => !(c == 2)

/-- Witness for C4: three members, member 2 failing, leaves the registry at
exactly the two surviving members. -/
theorem broadcast_self_healing_witness :
    (broadcast c4Manager c4SendOk "tick").1.active_connections =
      c4Manager.active_connections.filter (fun c => c4SendOk c "tick")
    ∧ (broadcast c4Manager c4SendOk "tick").1.active_connections.length + 1 =
        c4Manager.active_connections.length :=
  ⟨(broadcast_self_healing c4Manager c4SendOk "tick" (by decide)
      (by decide)).2.2.2.2.1,
   (broadcast_self_healing c4Manager c4SendOk "tick" (by decide)
      (by decide)).2.2.2.2.2.1⟩

def c9WellformedState : AlertManager :=
  { thresholds := defaultThresholds, alert_handlers := [], alert_history := [],
    cooldown_period := 300, last_alerts := [] }

/-- Witness for the amended C9: the default config is complete, and a
snapshot mixing numeric readings with missing sub-fields passes `check_all`
without raising. -/
theorem evaluator_total_on_wellformed_inputs_witness :
    exceptOk (check_allV c9WellformedState 0
      { cpu := some { total := some (.num 97) },
        memory := some { ram := none },
        disk := some { partitions := some
                         [{ percent := some (.num 99), mountpoint := none }] },
        sensors := some { temperatures := some
                            [("coretemp", none),
                             ("acpi", some [{ current := some (.num 95),
                                              label := none }])] } }) = true :=
  (evaluator_total_on_wellformed_inputs c9WellformedState 0 (by decide)).2.2.2.2.1
    _ (by decide)

end OverWatch
